import Mathlib

/-!
Shallow embedding of the loss-estimation engine of `src/src/App.tsx`
(the revision at lines 276-360, whose defaults and thresholds the spec's
scenarios use).  All numeric quantities are modelled as real numbers;
`Math.log` is `Real.log`, `Math.log10 x` is `Real.logb 10 x`,
`Math.exp` is `Real.exp`, `Math.min`/`Math.max` are `min`/`max`.
-/

namespace Abil

/-- The five caller-supplied inputs (the five `useState` values). -/
structure Params where
  leads : ℝ
  conversion : ℝ
  ticket : ℝ
  followUps : ℝ
  responseTime : ℝ

/-- Status labels for the follow-up model (`CalculationResult['followUpStatus']`). -/
inductive FollowUpStatus where
  | CRITICAL
  | WARNING
  | ADEQUATE
deriving DecidableEq, Repr

/-- Status labels for the response-time model (`CalculationResult['responseStatus']`). -/
inductive ResponseStatus where
  | EXCELLENT
  | GOOD
  | IMPROVE
  | WARNING
  | CRITICAL
deriving DecidableEq, Repr

/-- Ordering of response-status labels, best (0) to worst (4). -/
def responseRank : ResponseStatus → ℕ
  | .EXCELLENT => 0
  | .GOOD => 1
  | .IMPROVE => 2
  | .WARNING => 3
  | .CRITICAL => 4

/-- `const currentSales = leads * (conversion / 100);` -/
noncomputable def currentSales (p : Params) : ℝ :=
  p.leads * (p.conversion / 100)

/-- `const currentRevenue = currentSales * ticket;` -/
noncomputable def currentRevenue (p : Params) : ℝ :=
  currentSales p * p.ticket

/-- `const annualRevenue = currentRevenue * 12;` -/
noncomputable def annualRevenue (p : Params) : ℝ :=
  currentRevenue p * 12

/-- `const nonConvertedLeads = leads - currentSales;` -/
noncomputable def nonConvertedLeads (p : Params) : ℝ :=
  p.leads - currentSales p

/-- `const safeFollowUps = Math.min(followUps, 10);` -/
noncomputable def safeFollowUps (followUps : ℝ) : ℝ :=
  min followUps 10

/-- `const rawLossPercentage = 1 - (Math.log(safeFollowUps + 1) / Math.log(11));` -/
noncomputable def rawLossPercentage (followUps : ℝ) : ℝ :=
  1 - Real.log (safeFollowUps followUps + 1) / Real.log 11

/-- `const followUpLossFactor = Math.max(0, rawLossPercentage);` -/
noncomputable def followUpLossFactor (followUps : ℝ) : ℝ :=
  max 0 (rawLossPercentage followUps)

/-- The follow-up status cascade (`> 0.60` CRITICAL, `>= 0.30` WARNING, else ADEQUATE). -/
noncomputable def followUpStatus (factor : ℝ) : FollowUpStatus :=
  if factor > 0.60 then .CRITICAL
  else if factor ≥ 0.30 then .WARNING
  else .ADEQUATE

/-- `const maxFollowUpRecoverable = nonConvertedLeads * 0.50;` -/
noncomputable def maxFollowUpRecoverable (p : Params) : ℝ :=
  nonConvertedLeads p * 0.50

/-- `const followUpRecoverableLeads = maxFollowUpRecoverable * followUpLossFactor;` -/
noncomputable def followUpRecoverableLeads (p : Params) : ℝ :=
  maxFollowUpRecoverable p * followUpLossFactor p.followUps

/-- `const followUpLossSales = followUpRecoverableLeads * 0.12;` -/
noncomputable def followUpLossSales (p : Params) : ℝ :=
  followUpRecoverableLeads p * 0.12

/-- `const followUpLossRevenue = followUpLossSales * ticket;` -/
noncomputable def followUpLossRevenue (p : Params) : ℝ :=
  followUpLossSales p * p.ticket

/-- `const k = 2.5;` -/
noncomputable def k : ℝ := 2.5

/-- `const midpoint = 1.78;` -/
noncomputable def midpoint : ℝ := 1.78

/-- `const timeLog = Math.log10(responseTime + 1);` -/
noncomputable def timeLog (responseTime : ℝ) : ℝ :=
  Real.logb 10 (responseTime + 1)

/-- `const responseTimeLossFactor = 1 / (1 + Math.exp(-k * (timeLog - midpoint)));` -/
noncomputable def responseTimeLossFactor (responseTime : ℝ) : ℝ :=
  1 / (1 + Real.exp (-k * (timeLog responseTime - midpoint)))

/-- The response status cascade on raw minutes (lines 315-324). -/
noncomputable def responseStatus (responseTime : ℝ) : ResponseStatus :=
  if responseTime ≤ 5 then .EXCELLENT
  else if responseTime ≤ 30 then .GOOD
  else if responseTime ≤ 60 then .WARNING
  else .CRITICAL

/-- `const maxResponseRecoverable = nonConvertedLeads * 0.60;` -/
noncomputable def maxResponseRecoverable (p : Params) : ℝ :=
  nonConvertedLeads p * 0.60

/-- `const responseRecoverableLeads = maxResponseRecoverable * responseTimeLossFactor;` -/
noncomputable def responseRecoverableLeads (p : Params) : ℝ :=
  maxResponseRecoverable p * responseTimeLossFactor p.responseTime

/-- `const responseLossSales = responseRecoverableLeads * 0.15;` -/
noncomputable def responseLossSales (p : Params) : ℝ :=
  responseRecoverableLeads p * 0.15

/-- `const responseLossRevenue = responseLossSales * ticket;` -/
noncomputable def responseLossRevenue (p : Params) : ℝ :=
  responseLossSales p * p.ticket

/-- `const totalLossSales = followUpLossSales + responseLossSales;` -/
noncomputable def totalLossSales (p : Params) : ℝ :=
  followUpLossSales p + responseLossSales p

/-- `const totalLossRevenue = followUpLossRevenue + responseLossRevenue;` -/
noncomputable def totalLossRevenue (p : Params) : ℝ :=
  followUpLossRevenue p + responseLossRevenue p

/-- `const totalPotentialSales = currentSales + totalLossSales;` -/
noncomputable def totalPotentialSales (p : Params) : ℝ :=
  currentSales p + totalLossSales p

/-- `const efficiency = totalPotentialSales > 0 ? (currentSales / totalPotentialSales) * 100 : 100;` -/
noncomputable def efficiency (p : Params) : ℝ :=
  if totalPotentialSales p > 0 then currentSales p / totalPotentialSales p * 100 else 100

/-- The `CalculationResult` interface of the source. -/
structure CalculationResult where
  currentSales : ℝ
  currentRevenue : ℝ
  annualRevenue : ℝ
  followUpStatus : FollowUpStatus
  followUpLossSales : ℝ
  followUpLossRevenue : ℝ
  followUpLossAnnual : ℝ
  followUpFactor : ℝ
  responseStatus : ResponseStatus
  responseLossSales : ℝ
  responseLossRevenue : ℝ
  responseLossAnnual : ℝ
  responseFactor : ℝ
  totalLossSales : ℝ
  totalLossRevenue : ℝ
  totalLossAnnual : ℝ
  efficiency : ℝ

/-- The engine: the body of the `useMemo` at lines 285-360 as a pure function. -/
noncomputable def compute (p : Params) : CalculationResult where
  currentSales := currentSales p
  currentRevenue := currentRevenue p
  annualRevenue := annualRevenue p
  followUpStatus := followUpStatus (followUpLossFactor p.followUps)
  followUpLossSales := followUpLossSales p
  followUpLossRevenue := followUpLossRevenue p
  followUpLossAnnual := followUpLossRevenue p * 12
  followUpFactor := followUpLossFactor p.followUps
  responseStatus := responseStatus p.responseTime
  responseLossSales := responseLossSales p
  responseLossRevenue := responseLossRevenue p
  responseLossAnnual := responseLossRevenue p * 12
  responseFactor := responseTimeLossFactor p.responseTime
  totalLossSales := totalLossSales p
  totalLossRevenue := totalLossRevenue p
  totalLossAnnual := totalLossRevenue p * 12
  efficiency := efficiency p

/-- The `pieData` projection: the two annual-loss slices, zero-valued slices filtered out. -/
noncomputable def pieData (p : Params) : List (String × ℝ) :=
  ([("Perda por Follow-up", (compute p).followUpLossAnnual),
    ("Perda por Tempo", (compute p).responseLossAnnual)]).filter fun d => d.2 > 0

/-- Default inputs of the embedded revision (lines 278-282). -/
noncomputable def defaultParams : Params :=
  { leads := 100, conversion := 10, ticket := 5000, followUps := 3, responseTime := 60 }

/-- Minimum of the response-time input (the sliders at lines 213 and 253 use `min={1}`). -/
noncomputable def minResponseMinutes : ℝ := 1

/-! Helper facts about the two loss factors, shared by several theorems below. -/

lemma log_eleven_pos : 0 < Real.log 11 :=
  Real.log_pos (by norm_num)

lemma one_add_exp_pos (x : ℝ) : 0 < 1 + Real.exp x := by
  positivity

lemma responseTimeLossFactor_pos (t : ℝ) : 0 < responseTimeLossFactor t := by
  unfold responseTimeLossFactor
  exact div_pos one_pos (one_add_exp_pos _)

lemma responseTimeLossFactor_lt_one (t : ℝ) : responseTimeLossFactor t < 1 := by
  unfold responseTimeLossFactor
  rw [div_lt_one (one_add_exp_pos _)]
  linarith [Real.exp_pos (-k * (timeLog t - midpoint))]

lemma responseTimeLossFactor_strictMono {t₁ t₂ : ℝ} (h0 : 0 < t₁) (h : t₁ < t₂) :
    responseTimeLossFactor t₁ < responseTimeLossFactor t₂ := by
  unfold responseTimeLossFactor timeLog k midpoint
  have hlog : Real.logb 10 (t₁ + 1) < Real.logb 10 (t₂ + 1) :=
    Real.logb_lt_logb (by norm_num) (by linarith) (by linarith)
  have hexp : Real.exp (-(2.5 : ℝ) * (Real.logb 10 (t₂ + 1) - 1.78)) <
      Real.exp (-(2.5 : ℝ) * (Real.logb 10 (t₁ + 1) - 1.78)) :=
    Real.exp_lt_exp.mpr (by nlinarith)
  exact one_div_lt_one_div_of_lt (one_add_exp_pos _) (by linarith)

lemma followUpLossFactor_nonneg (a : ℝ) : 0 ≤ followUpLossFactor a :=
  le_max_left 0 _

lemma followUpLossFactor_le_one {a : ℝ} (ha : 0 ≤ a) : followUpLossFactor a ≤ 1 := by
  unfold followUpLossFactor rawLossPercentage safeFollowUps
  have h1 : (1 : ℝ) ≤ min a 10 + 1 := by
    have : (0 : ℝ) ≤ min a 10 := le_min ha (by norm_num)
    linarith
  have h2 : 0 ≤ Real.log (min a 10 + 1) := Real.log_nonneg h1
  have h3 : 0 ≤ Real.log (min a 10 + 1) / Real.log 11 :=
    div_nonneg h2 log_eleven_pos.le
  apply max_le (by norm_num)
  linarith

lemma followUpLossFactor_anti {a b : ℝ} (ha : 0 ≤ a) (hab : a ≤ b) :
    followUpLossFactor b ≤ followUpLossFactor a := by
  unfold followUpLossFactor rawLossPercentage safeFollowUps
  have h0 : (0 : ℝ) < min a 10 + 1 := by
    have : (0 : ℝ) ≤ min a 10 := le_min ha (by norm_num)
    linarith
  have hmin : min a 10 ≤ min b 10 := min_le_min hab le_rfl
  have hlog : Real.log (min a 10 + 1) ≤ Real.log (min b 10 + 1) :=
    Real.log_le_log h0 (by linarith)
  have hdiv : Real.log (min a 10 + 1) / Real.log 11 ≤
      Real.log (min b 10 + 1) / Real.log 11 :=
    (div_le_div_iff_of_pos_right log_eleven_pos).mpr hlog
  exact max_le_max le_rfl (by linarith)

lemma followUpLossFactor_zero : followUpLossFactor 0 = 1 := by
  unfold followUpLossFactor rawLossPercentage safeFollowUps
  rw [min_eq_left (by norm_num)]
  norm_num

lemma followUpLossFactor_of_ten_le {a : ℝ} (ha : (10 : ℝ) ≤ a) :
    followUpLossFactor a = 0 := by
  unfold followUpLossFactor rawLossPercentage safeFollowUps
  have h11 : (10 : ℝ) + 1 = 11 := by norm_num
  rw [min_eq_right ha, h11, div_self (ne_of_gt log_eleven_pos)]
  norm_num

/-- C1: the response factor is exactly the logistic curve
`1 / (1 + exp(-2.5 * (log10(t + 1) - 1.78)))`, lies strictly between 0 and 1,
and is strictly increasing in the response time. -/
theorem c1_response_factor_sigmoid :
    (∀ p : Params, 0 < p.responseTime →
      (compute p).responseFactor =
          1 / (1 + Real.exp (-(2.5 : ℝ) * (Real.logb 10 (p.responseTime + 1) - 1.78))) ∧
      0 < (compute p).responseFactor ∧ (compute p).responseFactor < 1) ∧
    (∀ t₁ t₂ : ℝ, 0 < t₁ → t₁ < t₂ →
      responseTimeLossFactor t₁ < responseTimeLossFactor t₂) := by
  constructor
  · intro p _
    refine ⟨?_, responseTimeLossFactor_pos _, responseTimeLossFactor_lt_one _⟩
    show responseTimeLossFactor p.responseTime = _
    unfold responseTimeLossFactor timeLog k midpoint
    norm_num
  · intro t₁ t₂ h0 h
    exact responseTimeLossFactor_strictMono h0 h

/-- C1 witness: the sigmoid clauses applied at the concrete times 60 and 60 < 120. -/
theorem c1_response_factor_sigmoid_witness :
    (0 < (compute defaultParams).responseFactor ∧
      (compute defaultParams).responseFactor < 1) ∧
    responseTimeLossFactor 60 < responseTimeLossFactor 120 :=
  ⟨(c1_response_factor_sigmoid.1 defaultParams (by norm_num [defaultParams])).2,
   c1_response_factor_sigmoid.2 60 120 (by norm_num) (by norm_num)⟩

/-- C4: the follow-up factor equals `max(0, 1 - ln(min(attempts, 10) + 1) / ln 11)`,
is exactly 1 at 0 attempts and exactly 0 at 10 attempts, is non-increasing in the
attempts, vanishes for every attempts value of at least 10, and lies in `[0, 1]`. -/
theorem c4_followup_factor_decay :
    (∀ p : Params, (compute p).followUpFactor =
        max 0 (1 - Real.log (min p.followUps 10 + 1) / Real.log 11)) ∧
    followUpLossFactor 0 = 1 ∧
    followUpLossFactor 10 = 0 ∧
    (∀ a b : ℝ, 0 ≤ a → a ≤ b → followUpLossFactor b ≤ followUpLossFactor a) ∧
    (∀ a : ℝ, 10 ≤ a → followUpLossFactor a = 0) ∧
    (∀ a : ℝ, 0 ≤ a → 0 ≤ followUpLossFactor a ∧ followUpLossFactor a ≤ 1) := by
  refine ⟨fun p => rfl, followUpLossFactor_zero, followUpLossFactor_of_ten_le le_rfl,
    fun a b ha hab => followUpLossFactor_anti ha hab,
    fun a ha => followUpLossFactor_of_ten_le ha,
    fun a ha => ⟨followUpLossFactor_nonneg a, followUpLossFactor_le_one ha⟩⟩

/-- C4 witness: the decay clauses applied at the concrete attempt counts 3 ≤ 7 and 12. -/
theorem c4_followup_factor_decay_witness :
    followUpLossFactor 7 ≤ followUpLossFactor 3 ∧
    followUpLossFactor 12 = 0 ∧
    0 ≤ followUpLossFactor 3 ∧ followUpLossFactor 3 ≤ 1 :=
  ⟨c4_followup_factor_decay.2.2.2.1 3 7 (by norm_num) (by norm_num),
   c4_followup_factor_decay.2.2.2.2.1 12 (by norm_num),
   c4_followup_factor_decay.2.2.2.2.2 3 (by norm_num)⟩

lemma followUpLossSales_eq (p : Params) :
    followUpLossSales p = nonConvertedLeads p * (0.06 * followUpLossFactor p.followUps) := by
  unfold followUpLossSales followUpRecoverableLeads maxFollowUpRecoverable
  ring

lemma responseLossSales_eq (p : Params) :
    responseLossSales p =
      nonConvertedLeads p * (0.09 * responseTimeLossFactor p.responseTime) := by
  unfold responseLossSales responseRecoverableLeads maxResponseRecoverable
  ring

/-- With conversion above 100 the non-converted pool is negative, both loss-sales
figures flip sign, and the efficiency exceeds 100. -/
lemma over_conversion_analysis (p : Params) (hl : 0 < p.leads) (hc : 100 < p.conversion)
    (hf : 0 ≤ p.followUps) :
    nonConvertedLeads p < 0 ∧
    followUpLossSales p ≤ 0 ∧
    (0 < followUpLossFactor p.followUps → followUpLossSales p < 0) ∧
    responseLossSales p < 0 ∧
    100 < efficiency p := by
  have hcs : p.leads < currentSales p := by
    unfold currentSales
    nlinarith
  have hcs0 : 0 < currentSales p := lt_trans hl hcs
  have hnc : nonConvertedLeads p < 0 := by
    unfold nonConvertedLeads
    linarith
  have hf0 := followUpLossFactor_nonneg p.followUps
  have hf1 := followUpLossFactor_le_one hf
  have hr0 := responseTimeLossFactor_pos p.responseTime
  have hr1 := responseTimeLossFactor_lt_one p.responseTime
  have hfls : followUpLossSales p ≤ 0 := by
    rw [followUpLossSales_eq]
    nlinarith
  have hrls : responseLossSales p < 0 := by
    rw [responseLossSales_eq]
    exact mul_neg_of_neg_of_pos hnc (by nlinarith)
  have htls : totalLossSales p < 0 := by
    unfold totalLossSales
    linarith
  have htlsge : 0.15 * nonConvertedLeads p ≤ totalLossSales p := by
    unfold totalLossSales
    rw [followUpLossSales_eq, responseLossSales_eq]
    nlinarith
  have htp : 0 < totalPotentialSales p := by
    unfold totalPotentialSales
    unfold nonConvertedLeads at htlsge
    nlinarith
  have heff : 100 < efficiency p := by
    unfold efficiency
    rw [if_pos htp]
    have h1 : (1 : ℝ) < currentSales p / totalPotentialSales p := by
      rw [one_lt_div htp]
      unfold totalPotentialSales
      linarith
    linarith
  have hstrict : 0 < followUpLossFactor p.followUps → followUpLossSales p < 0 := by
    intro hpos
    rw [followUpLossSales_eq]
    exact mul_neg_of_neg_of_pos hnc (by nlinarith)
  exact ⟨hnc, hfls, hstrict, hrls, heff⟩

/-- C10: with positive leads and a conversion rate above 100 — accepted as-is by
the engine — the non-converted pool is negative, the follow-up loss sales are
non-positive (strictly negative whenever its factor is positive), the response
loss sales are strictly negative (its factor is always positive), and the
returned efficiency exceeds 100. -/
theorem c10_over_conversion (p : Params) (hl : 0 < p.leads) (hc : 100 < p.conversion)
    (hf : 0 ≤ p.followUps) :
    nonConvertedLeads p < 0 ∧
    (compute p).followUpLossSales ≤ 0 ∧
    (0 < (compute p).followUpFactor → (compute p).followUpLossSales < 0) ∧
    0 < (compute p).responseFactor ∧
    (compute p).responseLossSales < 0 ∧
    100 < (compute p).efficiency := by
  obtain ⟨h1, h2, h3, h4, h5⟩ := over_conversion_analysis p hl hc hf
  exact ⟨h1, h2, h3, responseTimeLossFactor_pos _, h4, h5⟩

/-- C10 witness: the over-conversion conclusions at leads 100, conversion 200. -/
theorem c10_over_conversion_witness :
    (compute { leads := 100, conversion := 200, ticket := 1,
               followUps := 0, responseTime := 60 }).responseLossSales < 0 ∧
    100 < (compute { leads := 100, conversion := 200, ticket := 1,
                     followUps := 0, responseTime := 60 }).efficiency := by
  have h := c10_over_conversion
    { leads := 100, conversion := 200, ticket := 1, followUps := 0, responseTime := 60 }
    (by norm_num) (by norm_num) (by norm_num)
  exact ⟨h.2.2.2.2.1, h.2.2.2.2.2⟩

/-- C6 counterexample: the input (leads 100, conversion 200, ticket 1, 0 attempts,
60 minutes) is componentwise non-negative, yet the returned efficiency exceeds 100,
so the efficiency does not lie in `[0, 100]` for all non-negative inputs. -/
theorem c6_efficiency_counterexample :
    (0 : ℝ) ≤ 100 ∧ (0 : ℝ) ≤ 200 ∧ (0 : ℝ) ≤ 1 ∧ (0 : ℝ) ≤ 0 ∧ (0 : ℝ) < 60 ∧
    ¬ (compute { leads := 100, conversion := 200, ticket := 1,
                 followUps := 0, responseTime := 60 }).efficiency ≤ 100 := by
  refine ⟨by norm_num, by norm_num, by norm_num, le_rfl, by norm_num, not_le.mpr ?_⟩
  exact (over_conversion_analysis
    { leads := 100, conversion := 200, ticket := 1, followUps := 0, responseTime := 60 }
    (by norm_num) (by norm_num) (by norm_num)).2.2.2.2

/-- C6 (amended): for non-negative inputs whose conversion rate is at most 100,
the efficiency equals `currentSales / (currentSales + totalLossSales) * 100`,
is exactly 100 when that denominator is zero, always lies in `[0, 100]`,
and equals 100 whenever no recoverable loss exists. -/
theorem c6_efficiency_range (p : Params) (hl : 0 ≤ p.leads) (hc0 : 0 ≤ p.conversion)
    (hc1 : p.conversion ≤ 100) (hf : 0 ≤ p.followUps) :
    (0 < currentSales p + totalLossSales p →
      (compute p).efficiency = currentSales p / (currentSales p + totalLossSales p) * 100) ∧
    (currentSales p + totalLossSales p = 0 → (compute p).efficiency = 100) ∧
    0 ≤ (compute p).efficiency ∧ (compute p).efficiency ≤ 100 ∧
    ((compute p).totalLossSales = 0 → (compute p).efficiency = 100) := by
  have hcs : 0 ≤ currentSales p := by
    unfold currentSales
    have : 0 ≤ p.conversion / 100 := by linarith
    exact mul_nonneg hl this
  have hnc : 0 ≤ nonConvertedLeads p := by
    unfold nonConvertedLeads currentSales
    nlinarith
  have hf0 := followUpLossFactor_nonneg p.followUps
  have hr0 := responseTimeLossFactor_pos p.responseTime
  have hfls : 0 ≤ followUpLossSales p := by
    rw [followUpLossSales_eq]
    exact mul_nonneg hnc (mul_nonneg (by norm_num) hf0)
  have hrls : 0 ≤ responseLossSales p := by
    rw [responseLossSales_eq]
    exact mul_nonneg hnc (mul_nonneg (by norm_num) hr0.le)
  have htls : 0 ≤ totalLossSales p := by
    unfold totalLossSales
    linarith
  have htp : totalPotentialSales p = currentSales p + totalLossSales p := rfl
  refine ⟨?_, ?_, ?_, ?_, ?_⟩
  · intro h
    show efficiency p = _
    unfold efficiency
    rw [if_pos (by rw [htp]; exact h), htp]
  · intro h
    show efficiency p = 100
    unfold efficiency
    rw [if_neg (by rw [htp, h]; norm_num)]
  · show 0 ≤ efficiency p
    unfold efficiency
    split_ifs with h
    · exact mul_nonneg (div_nonneg hcs h.le) (by norm_num)
    · norm_num
  · show efficiency p ≤ 100
    unfold efficiency
    split_ifs with h
    · have hle : currentSales p / totalPotentialSales p ≤ 1 := by
        rw [div_le_one h, htp]
        linarith
      linarith
    · norm_num
  · intro h0
    have h0' : totalLossSales p = 0 := h0
    show efficiency p = 100
    unfold efficiency
    rcases lt_or_eq_of_le hcs with hpos | hzero
    · rw [if_pos (by rw [htp, h0']; linarith)]
      rw [htp, h0', add_zero, div_self (ne_of_gt hpos)]
      norm_num
    · rw [if_neg (by rw [htp, h0', ← hzero]; norm_num)]

/-- C6 witness: the amended efficiency bounds at the default inputs. -/
theorem c6_efficiency_range_witness :
    0 ≤ (compute defaultParams).efficiency ∧ (compute defaultParams).efficiency ≤ 100 := by
  have h := c6_efficiency_range defaultParams (by norm_num [defaultParams])
    (by norm_num [defaultParams]) (by norm_num [defaultParams]) (by norm_num [defaultParams])
  exact ⟨h.2.2.1, h.2.2.2.1⟩

/-- With at least 10 follow-up attempts the follow-up loss vanishes, but a positive
non-converted pool keeps the response loss — and hence the total — positive,
so the pie keeps exactly its response-time slice. -/
lemma zero_followup_response_only (p : Params) (h10 : (10 : ℝ) ≤ p.followUps)
    (hnc : 0 < nonConvertedLeads p) (ht : 0 < p.ticket) :
    (compute p).followUpLossAnnual = 0 ∧
    (compute p).totalLossAnnual = (compute p).responseLossAnnual ∧
    0 < (compute p).responseLossAnnual ∧
    pieData p = [("Perda por Tempo", (compute p).responseLossAnnual)] := by
  have hfactor : followUpLossFactor p.followUps = 0 := followUpLossFactor_of_ten_le h10
  have hfls : followUpLossSales p = 0 := by
    rw [followUpLossSales_eq, hfactor]
    ring
  have hflr : followUpLossRevenue p = 0 := by
    unfold followUpLossRevenue
    rw [hfls]
    ring
  have h1 : (compute p).followUpLossAnnual = 0 := by
    show followUpLossRevenue p * 12 = 0
    rw [hflr]
    ring
  have hrls : 0 < responseLossSales p := by
    rw [responseLossSales_eq]
    exact mul_pos hnc (mul_pos (by norm_num) (responseTimeLossFactor_pos _))
  have hrlr : 0 < responseLossRevenue p := mul_pos hrls ht
  have h3 : 0 < (compute p).responseLossAnnual := by
    show 0 < responseLossRevenue p * 12
    linarith
  have h2 : (compute p).totalLossAnnual = (compute p).responseLossAnnual := by
    show totalLossRevenue p * 12 = responseLossRevenue p * 12
    unfold totalLossRevenue
    rw [hflr]
    ring
  refine ⟨h1, h2, h3, ?_⟩
  unfold pieData
  rw [List.filter_cons, List.filter_cons, List.filter_nil]
  rw [if_neg (by simp [h1]), if_pos (by simp [h3])]

/-- C9 counterexample: at 10 follow-up attempts and the minimum response time
(1 minute, with the default leads, conversion and ticket) the total annual loss
is not zero — the sigmoid response factor is still positive — and the pie
composition series is not empty. -/
theorem c9_zero_loss_counterexample :
    (compute { leads := 100, conversion := 10, ticket := 5000,
               followUps := 10, responseTime := minResponseMinutes }).totalLossAnnual ≠ 0 ∧
    pieData { leads := 100, conversion := 10, ticket := 5000,
              followUps := 10, responseTime := minResponseMinutes } ≠ [] := by
  have h := zero_followup_response_only
    { leads := 100, conversion := 10, ticket := 5000,
      followUps := 10, responseTime := minResponseMinutes }
    (by norm_num) (by norm_num [nonConvertedLeads, currentSales]) (by norm_num)
  constructor
  · rw [h.2.1]
    exact ne_of_gt h.2.2.1
  · rw [h.2.2.2]
    simp

/-- C9 (amended): at 10 follow-up attempts and the minimum response time of 1
minute, the follow-up annual loss is exactly zero and its slice is filtered out
of the composition series; with a positive non-converted pool and a positive
ticket the response slice survives, so the total annual loss equals the response
annual loss and is positive, and the series holds exactly that one slice. -/
theorem c9_zero_loss_amended (leads conversion ticket : ℝ) (hl : 0 < leads)
    (hc : conversion < 100) (ht : 0 < ticket) :
    (compute { leads := leads, conversion := conversion, ticket := ticket,
               followUps := 10, responseTime := minResponseMinutes }).followUpLossAnnual = 0 ∧
    (compute { leads := leads, conversion := conversion, ticket := ticket,
               followUps := 10, responseTime := minResponseMinutes }).totalLossAnnual =
      (compute { leads := leads, conversion := conversion, ticket := ticket,
                 followUps := 10, responseTime := minResponseMinutes }).responseLossAnnual ∧
    0 < (compute { leads := leads, conversion := conversion, ticket := ticket,
                   followUps := 10, responseTime := minResponseMinutes }).totalLossAnnual ∧
    pieData { leads := leads, conversion := conversion, ticket := ticket,
              followUps := 10, responseTime := minResponseMinutes } =
      [("Perda por Tempo",
        (compute { leads := leads, conversion := conversion, ticket := ticket,
                   followUps := 10, responseTime := minResponseMinutes }).responseLossAnnual)] := by
  have hnc : 0 < nonConvertedLeads
      { leads := leads, conversion := conversion, ticket := ticket,
        followUps := 10, responseTime := minResponseMinutes } := by
    unfold nonConvertedLeads currentSales
    simp only
    nlinarith
  have h := zero_followup_response_only
    { leads := leads, conversion := conversion, ticket := ticket,
      followUps := 10, responseTime := minResponseMinutes } (by norm_num) hnc ht
  refine ⟨h.1, h.2.1, ?_, h.2.2.2⟩
  rw [h.2.1]
  exact h.2.2.1

/-- C9 witness: the amended zero-loss scenario at the default leads, conversion
and ticket. -/
theorem c9_zero_loss_amended_witness :
    (compute { leads := 100, conversion := 10, ticket := 5000,
               followUps := 10, responseTime := minResponseMinutes }).followUpLossAnnual = 0 ∧
    0 < (compute { leads := 100, conversion := 10, ticket := 5000,
                   followUps := 10, responseTime := minResponseMinutes }).totalLossAnnual := by
  have h := c9_zero_loss_amended 100 10 5000 (by norm_num) (by norm_num) (by norm_num)
  exact ⟨h.1, h.2.2.1⟩

/-! Rational bounds on the logarithms and the two factors at the default inputs,
used for the numeric default scenario. -/

lemma log_succ_bounds (a : ℝ) (ha : 0 < a) :
    1 / (a + 1) ≤ Real.log (a + 1) - Real.log a ∧
    Real.log (a + 1) - Real.log a ≤ 1 / a := by
  have ha1 : 0 < a + 1 := by linarith
  have hd : Real.log (a + 1) - Real.log a = Real.log ((a + 1) / a) := by
    rw [Real.log_div (ne_of_gt ha1) (ne_of_gt ha)]
  constructor
  · rw [hd]
    have h := Real.one_sub_inv_le_log_of_pos (div_pos ha1 ha)
    have he : 1 - ((a + 1) / a)⁻¹ = 1 / (a + 1) := by
      rw [inv_div]
      field_simp
    linarith
  · rw [hd]
    have h := Real.log_le_sub_one_of_pos (div_pos ha1 ha)
    have he : (a + 1) / a - 1 = 1 / a := by
      field_simp
    linarith

lemma log_pow_two (n : ℕ) : Real.log (2 ^ n) = n * Real.log 2 :=
  Real.log_pow 2 n

lemma log_ten_bounds : 2.2994 < Real.log 10 ∧ Real.log 10 < 2.3058 := by
  have l2g := Real.log_two_gt_d9
  have l2l := Real.log_two_lt_d9
  have h32 : Real.log 32 = 5 * Real.log 2 := by
    rw [show (32 : ℝ) = 2 ^ 5 by norm_num, log_pow_two]
    norm_num
  have h40 : Real.log 40 = Real.log 4 + Real.log 10 := by
    rw [← Real.log_mul (by norm_num) (by norm_num)]
    norm_num
  have h4 : Real.log 4 = 2 * Real.log 2 := by
    rw [show (4 : ℝ) = 2 ^ 2 by norm_num, log_pow_two]
    norm_num
  have b32 := log_succ_bounds 32 (by norm_num)
  have b33 := log_succ_bounds 33 (by norm_num)
  have b34 := log_succ_bounds 34 (by norm_num)
  have b35 := log_succ_bounds 35 (by norm_num)
  have b36 := log_succ_bounds 36 (by norm_num)
  have b37 := log_succ_bounds 37 (by norm_num)
  have b38 := log_succ_bounds 38 (by norm_num)
  have b39 := log_succ_bounds 39 (by norm_num)
  norm_num at b32 b33 b34 b35 b36 b37 b38 b39
  constructor <;>
    linarith [b32.1, b32.2, b33.1, b33.2, b34.1, b34.2, b35.1, b35.2,
      b36.1, b36.2, b37.1, b37.2, b38.1, b38.2, b39.1, b39.2]

lemma log_61_bounds : 4.1104 < Real.log 61 ∧ Real.log 61 < 4.1113 := by
  have l2g := Real.log_two_gt_d9
  have l2l := Real.log_two_lt_d9
  have h64 : Real.log 64 = 6 * Real.log 2 := by
    rw [show (64 : ℝ) = 2 ^ 6 by norm_num, log_pow_two]
    norm_num
  have b61 := log_succ_bounds 61 (by norm_num)
  have b62 := log_succ_bounds 62 (by norm_num)
  have b63 := log_succ_bounds 63 (by norm_num)
  norm_num at b61 b62 b63
  constructor <;>
    linarith [b61.1, b61.2, b62.1, b62.2, b63.1, b63.2]

lemma log_11_bounds : 2.39778 < Real.log 11 ∧ Real.log 11 < 2.39801 := by
  have l2g := Real.log_two_gt_d9
  have l2l := Real.log_two_lt_d9
  have h128 : Real.log 128 = 7 * Real.log 2 := by
    rw [show (128 : ℝ) = 2 ^ 7 by norm_num, log_pow_two]
    norm_num
  have h121 : Real.log 121 = 2 * Real.log 11 := by
    rw [show (121 : ℝ) = 11 ^ 2 by norm_num, Real.log_pow]
    norm_num
  have b121 := log_succ_bounds 121 (by norm_num)
  have b122 := log_succ_bounds 122 (by norm_num)
  have b123 := log_succ_bounds 123 (by norm_num)
  have b124 := log_succ_bounds 124 (by norm_num)
  have b125 := log_succ_bounds 125 (by norm_num)
  have b126 := log_succ_bounds 126 (by norm_num)
  have b127 := log_succ_bounds 127 (by norm_num)
  norm_num at b121 b122 b123 b124 b125 b126 b127
  constructor <;>
    linarith [b121.1, b121.2, b122.1, b122.2, b123.1, b123.2, b124.1, b124.2,
      b125.1, b125.2, b126.1, b126.2, b127.1, b127.2]

lemma timeLog_60_bounds : 1.7826 < timeLog 60 ∧ timeLog 60 < 1.7880 := by
  unfold timeLog
  rw [show (60 : ℝ) + 1 = 61 by norm_num, ← Real.log_div_log]
  obtain ⟨h61l, h61u⟩ := log_61_bounds
  obtain ⟨h10l, h10u⟩ := log_ten_bounds
  have h10p : 0 < Real.log 10 := by linarith
  constructor
  · rw [lt_div_iff₀ h10p]
    nlinarith
  · rw [div_lt_iff₀ h10p]
    nlinarith

lemma rF60_bounds :
    0.5016 < responseTimeLossFactor 60 ∧ responseTimeLossFactor 60 < 0.5051 := by
  unfold responseTimeLossFactor k midpoint
  obtain ⟨hLl, hLu⟩ := timeLog_60_bounds
  set v := -(2.5 : ℝ) * (timeLog 60 - 1.78) with hv
  have hv1 : -0.02 < v := by
    rw [hv]
    linarith
  have hv2 : v < -0.0065 := by
    rw [hv]
    linarith
  have hexp_lo : (0.98 : ℝ) < Real.exp v := by
    have := Real.add_one_le_exp v
    linarith
  have hexp_hi : Real.exp v < 0.99355 := by
    have h1 : -v + 1 < Real.exp (-v) := Real.add_one_lt_exp (by linarith)
    have hme : Real.exp v * Real.exp (-v) = 1 := by
      rw [← Real.exp_add]
      simp
    have h2 : (1.0065 : ℝ) < Real.exp (-v) := by linarith
    have h3 : Real.exp v < 1 / 1.0065 := by
      rw [lt_div_iff₀ (by norm_num)]
      nlinarith [Real.exp_pos v]
    linarith [show (1 : ℝ) / 1.0065 < 0.99355 by norm_num]
  have hd : 0 < 1 + Real.exp v := one_add_exp_pos v
  constructor
  · rw [lt_div_iff₀ hd]
    linarith
  · rw [div_lt_iff₀ hd]
    linarith

lemma fF3_bounds :
    0.42184 < followUpLossFactor 3 ∧ followUpLossFactor 3 < 0.42190 := by
  have l2g := Real.log_two_gt_d9
  have l2l := Real.log_two_lt_d9
  have h4 : Real.log 4 = 2 * Real.log 2 := by
    rw [show (4 : ℝ) = 2 ^ 2 by norm_num, log_pow_two]
    norm_num
  obtain ⟨h11l, h11u⟩ := log_11_bounds
  have h11p : 0 < Real.log 11 := by linarith
  unfold followUpLossFactor rawLossPercentage safeFollowUps
  rw [min_eq_left (by norm_num : (3 : ℝ) ≤ 10), show (3 : ℝ) + 1 = 4 by norm_num]
  have hq_hi : Real.log 4 / Real.log 11 < 0.57816 := by
    rw [div_lt_iff₀ h11p]
    nlinarith
  have hq_lo : (0.57810 : ℝ) < Real.log 4 / Real.log 11 := by
    rw [lt_div_iff₀ h11p]
    nlinarith
  rw [max_eq_right (by linarith)]
  constructor <;> linarith

/-- C8: the default scenario (leads 100, conversion 10, ticket 5000, 3 attempts,
60 minutes) yields the spec's figures: the baseline values exactly, and the
factor- and loss-figures within the stated tolerances. -/
theorem c8_default_scenario :
    (compute defaultParams).currentSales = 10 ∧
    (compute defaultParams).currentRevenue = 50000 ∧
    (compute defaultParams).annualRevenue = 600000 ∧
    |(compute defaultParams).followUpFactor - 0.4217| < 0.001 ∧
    (compute defaultParams).followUpStatus = .WARNING ∧
    |(compute defaultParams).followUpLossSales - 2.28| < 0.01 ∧
    |(compute defaultParams).followUpLossRevenue - 11385| < 20 ∧
    |(compute defaultParams).responseFactor - 0.5033| < 0.004 ∧
    |(compute defaultParams).responseLossSales - 4.08| < 0.03 ∧
    |(compute defaultParams).responseLossRevenue - 20385| < 150 ∧
    |(compute defaultParams).totalLossRevenue - 31770| < 200 ∧
    |(compute defaultParams).efficiency - 61.2| < 0.15 := by
  obtain ⟨hf3l, hf3u⟩ := fF3_bounds
  obtain ⟨hr60l, hr60u⟩ := rF60_bounds
  have hcs : currentSales defaultParams = 10 := by
    norm_num [currentSales, defaultParams]
  have hnc : nonConvertedLeads defaultParams = 90 := by
    norm_num [nonConvertedLeads, currentSales, defaultParams]
  have hat : defaultParams.followUps = 3 := rfl
  have hrt : defaultParams.responseTime = 60 := rfl
  have htk : defaultParams.ticket = 5000 := rfl
  have efls : followUpLossSales defaultParams = 5.4 * followUpLossFactor 3 := by
    rw [followUpLossSales_eq, hnc, hat]
    ring
  have erls : responseLossSales defaultParams = 8.1 * responseTimeLossFactor 60 := by
    rw [responseLossSales_eq, hnc, hrt]
    ring
  have eflr : followUpLossRevenue defaultParams = 27000 * followUpLossFactor 3 := by
    unfold followUpLossRevenue
    rw [efls, htk]
    ring
  have erlr : responseLossRevenue defaultParams = 40500 * responseTimeLossFactor 60 := by
    unfold responseLossRevenue
    rw [erls, htk]
    ring
  have etlr : totalLossRevenue defaultParams =
      27000 * followUpLossFactor 3 + 40500 * responseTimeLossFactor 60 := by
    unfold totalLossRevenue
    rw [eflr, erlr]
  have htp : totalPotentialSales defaultParams =
      10 + (5.4 * followUpLossFactor 3 + 8.1 * responseTimeLossFactor 60) := by
    unfold totalPotentialSales totalLossSales
    rw [efls, erls, hcs]
  have htppos : 0 < totalPotentialSales defaultParams := by
    rw [htp]
    linarith
  have heff : efficiency defaultParams =
      1000 / (10 + (5.4 * followUpLossFactor 3 + 8.1 * responseTimeLossFactor 60)) := by
    unfold efficiency
    rw [if_pos htppos, hcs, htp]
    ring
  have hD : (0 : ℝ) < 10 + (5.4 * followUpLossFactor 3 + 8.1 * responseTimeLossFactor 60) := by
    linarith
  refine ⟨by norm_num [compute, currentSales, defaultParams],
    by norm_num [compute, currentRevenue, currentSales, defaultParams],
    by norm_num [compute, annualRevenue, currentRevenue, currentSales, defaultParams],
    ?_, ?_, ?_, ?_, ?_, ?_, ?_, ?_, ?_⟩
  · show |followUpLossFactor 3 - 0.4217| < 0.001
    rw [abs_lt]
    constructor <;> linarith
  · show followUpStatus (followUpLossFactor 3) = .WARNING
    unfold followUpStatus
    rw [if_neg (not_lt.mpr (by linarith)), if_pos (by linarith)]
  · show |followUpLossSales defaultParams - 2.28| < 0.01
    rw [efls, abs_lt]
    constructor <;> linarith
  · show |followUpLossRevenue defaultParams - 11385| < 20
    rw [eflr, abs_lt]
    constructor <;> linarith
  · show |responseTimeLossFactor 60 - 0.5033| < 0.004
    rw [abs_lt]
    constructor <;> linarith
  · show |responseLossSales defaultParams - 4.08| < 0.03
    rw [erls, abs_lt]
    constructor <;> linarith
  · show |responseLossRevenue defaultParams - 20385| < 150
    rw [erlr, abs_lt]
    constructor <;> linarith
  · show |totalLossRevenue defaultParams - 31770| < 200
    rw [etlr, abs_lt]
    constructor <;> linarith
  · show |efficiency defaultParams - 61.2| < 0.15
    rw [heff, abs_lt]
    have hlo : (61.05 : ℝ) <
        1000 / (10 + (5.4 * followUpLossFactor 3 + 8.1 * responseTimeLossFactor 60)) := by
      rw [lt_div_iff₀ hD]
      linarith
    have hhi : 1000 / (10 + (5.4 * followUpLossFactor 3 + 8.1 * responseTimeLossFactor 60)) <
        (61.35 : ℝ) := by
      rw [div_lt_iff₀ hD]
      linarith
    constructor <;> linarith

/-- C2: the response status of the embedded revision is bucketed directly on raw
minutes (rule set A): EXCELLENT up to 5, GOOD up to 30, WARNING up to 60,
CRITICAL above 60; the minutes-to-label mapping is monotone — a lower time
yields an equal-or-better label (`responseRank` orders best 0 to worst 4). -/
theorem c2_response_status_rule_a :
    (∀ p : Params, (compute p).responseStatus = responseStatus p.responseTime) ∧
    (∀ t : ℝ, 0 < t →
      (t ≤ 5 → responseStatus t = .EXCELLENT) ∧
      (5 < t → t ≤ 30 → responseStatus t = .GOOD) ∧
      (30 < t → t ≤ 60 → responseStatus t = .WARNING) ∧
      (60 < t → responseStatus t = .CRITICAL)) ∧
    (∀ t₁ t₂ : ℝ, t₁ ≤ t₂ →
      responseRank (responseStatus t₁) ≤ responseRank (responseStatus t₂)) := by
  refine ⟨fun p => rfl, ?_, ?_⟩
  · intro t _
    refine ⟨?_, ?_, ?_, ?_⟩
    · intro h
      simp [responseStatus, h]
    · intro h1 h2
      rw [responseStatus, if_neg (by linarith), if_pos h2]
    · intro h1 h2
      rw [responseStatus, if_neg (by linarith), if_neg (by linarith), if_pos h2]
    · intro h1
      rw [responseStatus, if_neg (by linarith), if_neg (by linarith), if_neg (by linarith)]
  · intro t₁ t₂ h
    unfold responseStatus
    split_ifs <;> simp_all [responseRank] <;> linarith

/-- C2 witness: the bucket clauses and the monotonicity applied at concrete times. -/
theorem c2_response_status_rule_a_witness :
    responseStatus 3 = .EXCELLENT ∧ responseStatus 20 = .GOOD ∧
    responseStatus 45 = .WARNING ∧ responseStatus 90 = .CRITICAL ∧
    responseRank (responseStatus 20) ≤ responseRank (responseStatus 90) :=
  ⟨(c2_response_status_rule_a.2.1 3 (by norm_num)).1 (by norm_num),
   (c2_response_status_rule_a.2.1 20 (by norm_num)).2.1 (by norm_num) (by norm_num),
   (c2_response_status_rule_a.2.1 45 (by norm_num)).2.2.1 (by norm_num) (by norm_num),
   (c2_response_status_rule_a.2.1 90 (by norm_num)).2.2.2 (by norm_num),
   c2_response_status_rule_a.2.2 20 90 (by norm_num)⟩

/-- C3: the baseline stage returns `currentSales = leads * conversionRate / 100`,
`currentRevenue = currentSales * averageTicket`, `annualRevenue = currentRevenue * 12`,
and both loss models draw from the pool `nonConvertedLeads = leads - currentSales`;
the stage is total (stated for every input, with no hypothesis at all). -/
theorem c3_baseline_stage (p : Params) :
    (compute p).currentSales = p.leads * p.conversion / 100 ∧
    (compute p).currentRevenue = (compute p).currentSales * p.ticket ∧
    (compute p).annualRevenue = (compute p).currentRevenue * 12 ∧
    nonConvertedLeads p = p.leads - (compute p).currentSales ∧
    (compute p).followUpLossSales =
      nonConvertedLeads p * 0.50 * followUpLossFactor p.followUps * 0.12 ∧
    (compute p).responseLossSales =
      nonConvertedLeads p * 0.60 * responseTimeLossFactor p.responseTime * 0.15 := by
  refine ⟨?_, rfl, rfl, rfl, ?_, ?_⟩
  · simp [compute, currentSales]
    ring
  · simp [compute, followUpLossSales, followUpRecoverableLeads, maxFollowUpRecoverable]
  · simp [compute, responseLossSales, responseRecoverableLeads, maxResponseRecoverable]

/-- C5: the follow-up status is CRITICAL above 0.60, WARNING on `[0.30, 0.60]`,
ADEQUATE below 0.30; the boundaries 0.60 and 0.30 both map to WARNING. -/
theorem c5_followup_status_thresholds (f : ℝ) (p : Params) :
    (compute p).followUpStatus = followUpStatus (followUpLossFactor p.followUps) ∧
    (f > 0.60 → followUpStatus f = .CRITICAL) ∧
    (0.30 ≤ f → f ≤ 0.60 → followUpStatus f = .WARNING) ∧
    (¬ (0.30 ≤ f) → followUpStatus f = .ADEQUATE) ∧
    followUpStatus 0.60 = .WARNING ∧
    followUpStatus 0.30 = .WARNING := by
  refine ⟨rfl, ?_, ?_, ?_, ?_, ?_⟩
  · intro h
    simp [followUpStatus, h]
  · intro h1 h2
    rw [followUpStatus]
    rw [if_neg (by push_neg; linarith), if_pos h1]
  · intro h
    rw [followUpStatus]
    rw [if_neg (by push_neg; linarith [not_le.mp h]), if_neg h]
  · rw [followUpStatus]
    rw [if_neg (by norm_num), if_pos (by norm_num)]
  · rw [followUpStatus]
    rw [if_neg (by norm_num), if_pos (by norm_num)]

/-- C5 witness: the threshold clauses applied at concrete factors. -/
theorem c5_followup_status_thresholds_witness :
    followUpStatus 0.7 = .CRITICAL ∧ followUpStatus 0.45 = .WARNING ∧
    followUpStatus 0.1 = .ADEQUATE :=
  ⟨(c5_followup_status_thresholds 0.7 defaultParams).2.1 (by norm_num),
   (c5_followup_status_thresholds 0.45 defaultParams).2.2.1 (by norm_num) (by norm_num),
   (c5_followup_status_thresholds 0.1 defaultParams).2.2.2.1 (by norm_num)⟩

/-- C7: within each loss model `lossRevenue = lossSales * averageTicket` and
`lossAnnual = lossRevenue * 12`, and the totals are plain sums of the two
models' figures at every level (sales, monthly revenue, annual revenue). -/
theorem c7_loss_algebra (p : Params) :
    (compute p).followUpLossRevenue = (compute p).followUpLossSales * p.ticket ∧
    (compute p).followUpLossAnnual = (compute p).followUpLossRevenue * 12 ∧
    (compute p).responseLossRevenue = (compute p).responseLossSales * p.ticket ∧
    (compute p).responseLossAnnual = (compute p).responseLossRevenue * 12 ∧
    (compute p).totalLossSales = (compute p).followUpLossSales + (compute p).responseLossSales ∧
    (compute p).totalLossRevenue =
      (compute p).followUpLossRevenue + (compute p).responseLossRevenue ∧
    (compute p).totalLossAnnual =
      (compute p).followUpLossAnnual + (compute p).responseLossAnnual := by
  refine ⟨rfl, rfl, rfl, rfl, rfl, rfl, ?_⟩
  simp [compute, totalLossRevenue]
  ring

end Abil
